import Mathlib

/-!
Verification development for the `iso8601` Go package.

The package parses ISO 8601 timestamps with six anchored regular expressions
(`iso8601Variants[0..5]`, built in `init` of `iso8601.go`) and converts the
captured fields into a `time.Time` via the normalizing constructor `time.Date`.
A wrapper type `Time` adds JSON/text deserialization.

The six regexes are anchored (`^...$`) and deterministic: every group has a
fixed width except the fractional-second digits (whose follow set `Z+-` is
disjoint from digits) and the offset (which is followed directly by `$`).
They are therefore embedded here as deterministic scanners over `List Char`,
one function per regex group, consuming characters left to right.  Integer
conversion of captured digit substrings (`atoip`, which wraps
`strconv.Atoi`) is embedded as `natOfDigits`.

Go runtime panics (string index out of range inside the offset extraction)
are modelled by the `ParseOutcome.panicked` constructor; a parse that returns
`(time.Time{}, err)` is modelled by `ParseOutcome.err` carrying the input
string that the error message quotes (`stacktrace.NewError("Invalid ISO 8601
timestamp: %#v", s)`); a successful return is `ParseOutcome.ok` carrying the
exact arguments the code passes to `time.Date` (the parser itself performs no
calendar normalization, it delegates that to `time.Date`).
-/

/-- Character class `[0-9]`, by code point (`'0'` = 48, `'9'` = 57). -/
def digitOk (c : Char) : Bool := decide (48 ≤ c.toNat ∧ c.toNat ≤ 57)

/-- Numeric value of a decimal digit character. -/
def digVal (c : Char) : Nat := c.toNat - 48

/-- Decimal value of a digit string; embeds `atoip` (`strconv.Atoi`) applied
to a captured all-digit substring. -/
def natOfDigits (l : List Char) : Nat := l.foldl (fun a c => a * 10 + digVal c) 0

/-- Character class pair for the month group `(0[1-9]|1[0-2])`. -/
def monthOk (a b : Char) : Bool :=
  decide ((a.toNat = 48 ∧ 49 ≤ b.toNat ∧ b.toNat ≤ 57) ∨
          (a.toNat = 49 ∧ 48 ≤ b.toNat ∧ b.toNat ≤ 50))

/-- Character class pair for the day group `(0[1-9]|[12][0-9]|3[01])`. -/
def dayOk (a b : Char) : Bool :=
  decide ((a.toNat = 48 ∧ 49 ≤ b.toNat ∧ b.toNat ≤ 57) ∨
          ((a.toNat = 49 ∨ a.toNat = 50) ∧ 48 ≤ b.toNat ∧ b.toNat ≤ 57) ∨
          (a.toNat = 51 ∧ (b.toNat = 48 ∨ b.toNat = 49)))

/-- Character class pair for the hour group `([01][0-9]|2[0-3])`. -/
def hourOk (a b : Char) : Bool :=
  decide (((a.toNat = 48 ∨ a.toNat = 49) ∧ 48 ≤ b.toNat ∧ b.toNat ≤ 57) ∨
          (a.toNat = 50 ∧ 48 ≤ b.toNat ∧ b.toNat ≤ 51))

/-- Character class pair for the minute group `([0-5][0-9])`. -/
def minuteOk (a b : Char) : Bool :=
  decide (48 ≤ a.toNat ∧ a.toNat ≤ 53 ∧ 48 ≤ b.toNat ∧ b.toNat ≤ 57)

/-- Character class pair for the second group `([0-5][0-9]|6[01])`:
seconds 00-61, admitting leap-second notations 60 and 61. -/
def secondOk (a b : Char) : Bool :=
  decide ((48 ≤ a.toNat ∧ a.toNat ≤ 53 ∧ 48 ≤ b.toNat ∧ b.toNat ≤ 57) ∨
          (a.toNat = 54 ∧ (b.toNat = 48 ∨ b.toNat = 49)))

/-- Date/time separator class `[Tt ]`. -/
def sepOk (c : Char) : Bool := decide (c = 'T' ∨ c = 't' ∨ c = ' ')

/-- Offset sign class `[-+]`. -/
def signOk (c : Char) : Bool := decide (c = '+' ∨ c = '-')

/-- Offset hour class `[01][0-9]`. -/
def offHourOk (a b : Char) : Bool :=
  decide ((a.toNat = 48 ∨ a.toNat = 49) ∧ 48 ≤ b.toNat ∧ b.toNat ≤ 57)

/-- Scan the year group `([0-9]{4})`: four digits, captured value via
`atoip`. -/
def pYear : List Char → Option (Nat × List Char)
  | a :: b :: c :: d :: r =>
    if digitOk a && digitOk b && digitOk c && digitOk d then
      some (natOfDigits [a, b, c, d], r)
    else none
  | _ => none

/-- Scan a fixed two-character group whose admissible character pairs are
given by `ok`; captured value via `atoip`. -/
def p2 (ok : Char → Char → Bool) : List Char → Option (Nat × List Char)
  | a :: b :: r => if ok a b then some (natOfDigits [a, b], r) else none
  | _ => none

/-- Scan one mandatory literal character of the pattern. -/
def pChar (c : Char) : List Char → Option (List Char)
  | x :: r => if x = c then some r else none
  | [] => none

/-- Scan the date/time separator `[Tt ]` (not a capture group). -/
def pSep : List Char → Option (List Char)
  | x :: r => if sepOk x then some r else none
  | [] => none

/-- Scan the optional fractional-second group `(?:[.,]([0-9]{1,9}))?`.
Returns the captured digit list (or `none` when the group is absent) and the
rest.  Because the regex continues with the offset group (first character
`Z`, `+` or `-`, never a digit, dot or comma) and the end anchor, the
backtracking semantics collapses to: if the next character is `.` or `,`,
the group must match and must take every following digit, and there must be
between 1 and 9 of them; otherwise the group is absent. -/
def pFrac (l : List Char) : Option (Option (List Char) × List Char) :=
  match l with
  | c :: r =>
    if c = '.' || c = ',' then
      let ds := r.takeWhile digitOk
      if 1 ≤ ds.length ∧ ds.length ≤ 9 then some (some ds, r.drop ds.length)
      else none
    else some (none, l)
  | [] => some (none, [])

/-- Scan the offset group `(Z|[-+][01][0-9]:?(?:[0-5][0-9])?)` immediately
followed by the end anchor `$`, so it must consume the entire remainder.
Returns the captured substring (the Go code re-reads its characters).
With the end anchor, the two optional pieces admit exactly the remainders
`""`, `":"`, `":mm"` and `"mm"` after the sign and hour digits. -/
def pOffsetEnd : List Char → Option (List Char)
  | ['Z'] => some ['Z']
  | s :: h1 :: h2 :: rest =>
    if signOk s && offHourOk h1 h2 then
      match rest with
      | [] => some [s, h1, h2]
      | [':'] => some [s, h1, h2, ':']
      | [':', m1, m2] =>
        if minuteOk m1 m2 then some [s, h1, h2, ':', m1, m2] else none
      | [m1, m2] =>
        if minuteOk m1 m2 then some [s, h1, h2, m1, m2] else none
      | _ => none
    else none
  | _ => none

/-- Result of matching one of the six regexes: the captured groups.
`full` corresponds to `len(parts) > 4` in the Go code (variants 0-3),
`dateOnly` to the date-only variants 4-5. -/
inductive MatchRes where
  | full (year month day hour minute second : Nat)
      (frac : Option (List Char)) (tz : List Char)
  | dateOnly (year month day : Nat)
deriving DecidableEq, Repr

/-- Year capture of a match result. -/
def MatchRes.yearOf : MatchRes → Nat
  | .full y _ _ _ _ _ _ _ => y
  | .dateOnly y _ _ => y

/-- `iso8601Variants[0]`:
`^([0-9]{4})-(0[1-9]|1[0-2])-(0[1-9]|[12][0-9]|3[01])[Tt ]([01][0-9]|2[0-3]):([0-5][0-9]):([0-5][0-9]|6[01])(?:[.,]([0-9]{1,9}))?(Z|[-+][01][0-9]:?(?:[0-5][0-9])?)$` -/
def variant0 (l : List Char) : Option MatchRes :=
  (pYear l).bind fun yr =>
  (pChar '-' yr.2).bind fun r1 =>
  (p2 monthOk r1).bind fun mo =>
  (pChar '-' mo.2).bind fun r2 =>
  (p2 dayOk r2).bind fun dy =>
  (pSep dy.2).bind fun r3 =>
  (p2 hourOk r3).bind fun hr =>
  (pChar ':' hr.2).bind fun r4 =>
  (p2 minuteOk r4).bind fun mi =>
  (pChar ':' mi.2).bind fun r5 =>
  (p2 secondOk r5).bind fun se =>
  (pFrac se.2).bind fun fr =>
  (pOffsetEnd fr.2).map fun tz =>
  MatchRes.full yr.1 mo.1 dy.1 hr.1 mi.1 se.1 fr.1 tz

/-- `iso8601Variants[1]`: compact date and compact time. -/
def variant1 (l : List Char) : Option MatchRes :=
  (pYear l).bind fun yr =>
  (p2 monthOk yr.2).bind fun mo =>
  (p2 dayOk mo.2).bind fun dy =>
  (pSep dy.2).bind fun r3 =>
  (p2 hourOk r3).bind fun hr =>
  (p2 minuteOk hr.2).bind fun mi =>
  (p2 secondOk mi.2).bind fun se =>
  (pFrac se.2).bind fun fr =>
  (pOffsetEnd fr.2).map fun tz =>
  MatchRes.full yr.1 mo.1 dy.1 hr.1 mi.1 se.1 fr.1 tz

/-- `iso8601Variants[2]`: hyphenated date and compact time. -/
def variant2 (l : List Char) : Option MatchRes :=
  (pYear l).bind fun yr =>
  (pChar '-' yr.2).bind fun r1 =>
  (p2 monthOk r1).bind fun mo =>
  (pChar '-' mo.2).bind fun r2 =>
  (p2 dayOk r2).bind fun dy =>
  (pSep dy.2).bind fun r3 =>
  (p2 hourOk r3).bind fun hr =>
  (p2 minuteOk hr.2).bind fun mi =>
  (p2 secondOk mi.2).bind fun se =>
  (pFrac se.2).bind fun fr =>
  (pOffsetEnd fr.2).map fun tz =>
  MatchRes.full yr.1 mo.1 dy.1 hr.1 mi.1 se.1 fr.1 tz

/-- `iso8601Variants[3]`: compact date and colon-separated time. -/
def variant3 (l : List Char) : Option MatchRes :=
  (pYear l).bind fun yr =>
  (p2 monthOk yr.2).bind fun mo =>
  (p2 dayOk mo.2).bind fun dy =>
  (pSep dy.2).bind fun r3 =>
  (p2 hourOk r3).bind fun hr =>
  (pChar ':' hr.2).bind fun r4 =>
  (p2 minuteOk r4).bind fun mi =>
  (pChar ':' mi.2).bind fun r5 =>
  (p2 secondOk r5).bind fun se =>
  (pFrac se.2).bind fun fr =>
  (pOffsetEnd fr.2).map fun tz =>
  MatchRes.full yr.1 mo.1 dy.1 hr.1 mi.1 se.1 fr.1 tz

/-- `iso8601Variants[4]`:
`^([0-9]{4})-(0[1-9]|1[0-2])-(0[1-9]|[12][0-9]|3[01])$` (date only). -/
def variant4 (l : List Char) : Option MatchRes :=
  (pYear l).bind fun yr =>
  (pChar '-' yr.2).bind fun r1 =>
  (p2 monthOk r1).bind fun mo =>
  (pChar '-' mo.2).bind fun r2 =>
  (p2 dayOk r2).bind fun dy =>
  if dy.2 = [] then some (MatchRes.dateOnly yr.1 mo.1 dy.1) else none

/-- `iso8601Variants[5]`:
`^([0-9]{4})(0[1-9]|1[0-2])(0[1-9]|[12][0-9]|3[01])$` (compact date only). -/
def variant5 (l : List Char) : Option MatchRes :=
  (pYear l).bind fun yr =>
  (p2 monthOk yr.2).bind fun mo =>
  (p2 dayOk mo.2).bind fun dy =>
  if dy.2 = [] then some (MatchRes.dateOnly yr.1 mo.1 dy.1) else none

/-- The regex table `iso8601Variants`, indexed as in the Go array. -/
def variantAt : Nat → List Char → Option MatchRes
  | 0 => variant0
  | 1 => variant1
  | 2 => variant2
  | 3 => variant3
  | 4 => variant4
  | 5 => variant5
  | _ => fun _ => none

/-- The `for _, re := range iso8601Variants` loop head: the first variant
that matches the input, in table order. -/
def firstMatch (l : List Char) : Option MatchRes :=
  match variant0 l with
  | some r => some r
  | none =>
  match variant1 l with
  | some r => some r
  | none =>
  match variant2 l with
  | some r => some r
  | none =>
  match variant3 l with
  | some r => some r
  | none =>
  match variant4 l with
  | some r => some r
  | none => variant5 l

/-- A `*time.Location` as the parser builds one: either `time.UTC` or a
`time.FixedZone` with the given total offset in seconds (the zone's display
name, `fmt.Sprintf("%c%02d:%02d", ...)`, plays no role in any claim and is
omitted). -/
inductive GoLoc where
  | utc
  | fixed (offsetSeconds : Int)
deriving DecidableEq, Repr

/-- The argument tuple the parser passes to the normalizing constructor
`time.Date(year, month, day, hour, minute, second, nanosecs, loc)`.  The
parser performs no range normalization itself; whatever appears here is
handed to `time.Date` unchanged. -/
structure TimeDateArgs where
  year : Nat
  month : Nat
  day : Nat
  hour : Nat
  minute : Nat
  second : Nat
  nanosec : Nat
  loc : GoLoc
deriving DecidableEq, Repr

/-- Outcome of `ParseISO8601Timestamp`: a successful `time.Date` call, the
failure return `(time.Time{}, stacktrace.NewError("Invalid ISO 8601
timestamp: %#v", s))` (the error quotes the input `s` verbatim, and the
accompanying timestamp is the zero value `time.Time{}`), or a runtime panic
(string index out of range). -/
inductive ParseOutcome where
  | ok (t : TimeDateArgs)
  | err (input : String)
  | panicked
deriving DecidableEq, Repr

/-- The right-padding loop `for len(fracSecStr) < 9 { fracSecStr += "0" }`. -/
def padTo9 (l : List Char) : List Char := l ++ List.replicate (9 - l.length) '0'

/-- The offset-resolution block of `ParseISO8601Timestamp`, reading
characters of the captured offset substring `tzStr` exactly as the Go code
indexes them; `none` models the runtime panic raised by an out-of-range
string index or slice (`tzStr[3]`, `tzStr[4:6]`, `tzStr[3:5]`). -/
def resolveLoc (tz : List Char) : Option GoLoc :=
  if tz = ['Z'] then some GoLoc.utc
  else
    match tz.get? 0, tz.get? 1, tz.get? 2, tz.get? 3 with
    | some s, some h1, some h2, some c3 =>
      let sign : Int := if s = '-' then -1 else 1
      let tzHour : Nat := natOfDigits [h1, h2]
      if c3 = ':' then
        match tz.get? 4, tz.get? 5 with
        | some m1, some m2 =>
          some (GoLoc.fixed (sign * ((tzHour * 3600 + natOfDigits [m1, m2] * 60 : Nat) : Int)))
        | _, _ => none
      else
        match tz.get? 4 with
        | some m2 =>
          some (GoLoc.fixed (sign * ((tzHour * 3600 + natOfDigits [c3, m2] * 60 : Nat) : Int)))
        | none => none
    | _, _, _, _ => none

/-- Field conversion of a successful regex match: the body of the `if
re.MatchString(s)` branch.  Date-only matches default hour, minute, second
and nanoseconds to 0 and the zone to UTC (`tzStr = "Z"`); full matches pad
the fractional capture to nanoseconds and resolve the offset (which can
panic). -/
def convert : MatchRes → ParseOutcome
  | .dateOnly y m d => .ok ⟨y, m, d, 0, 0, 0, 0, GoLoc.utc⟩
  | .full y m d hh mi se fr tz =>
    let nanos : Nat :=
      match fr with
      | none => 0
      | some ds => natOfDigits (padTo9 ds)
    match resolveLoc tz with
    | some loc => .ok ⟨y, m, d, hh, mi, se, nanos, loc⟩
    | none => .panicked

/-- `ParseISO8601Timestamp` on the character list of the input. -/
def parseChars (l : List Char) : ParseOutcome :=
  match firstMatch l with
  | some r => convert r
  | none => .err (String.mk l)

/-- `ParseISO8601Timestamp(s string) (time.Time, error)`. -/
def ParseISO8601Timestamp (s : String) : ParseOutcome := parseChars s.data

/-- The embedded `time.Time` field of the wrapper type `Time`: either the
zero value `time.Time{}` or the result of a `time.Date` call. -/
inductive GoTimeVal where
  | zero
  | fromDate (a : TimeDateArgs)
deriving DecidableEq, Repr

/-- Errors surfaced by the wrapper: the `time.ParseError` with message
": timestamp must be a JSON string literal" (carrying the offending value),
or the error propagated from the core parser (carrying the input its
message quotes). -/
inductive UnmarshalErr where
  | notAString (value : String)
  | parseFail (input : String)
deriving DecidableEq, Repr

/-- The quoting test of `Time.UnmarshalJSON`:
`(s[0] == '"' && s[len(s)-1] == '"') || (s[0] == '\'' && s[len(s)-1] == '\'')`. -/
def isQuoted (l : List Char) : Bool :=
  match l.head?, l.getLast? with
  | some a, some b => decide ((a = '"' ∧ b = '"') ∨ (a = '\'' ∧ b = '\''))
  | _, _ => false

/-- `Time.UnmarshalJSON` as a state transformer on the receiver's embedded
time value: given the prior value and the raw bytes, returns the new value
and the returned error (`none` = nil).  The outer `none` models a panic
propagated from the core parser. -/
def unmarshalJSONChars (prior : GoTimeVal) (l : List Char) :
    Option (GoTimeVal × Option UnmarshalErr) :=
  if l = ['n', 'u', 'l', 'l'] then some (prior, none)
  else if l.length < 2 ∨ isQuoted l = false then
    some (prior, some (.notAString (String.mk l)))
  else
    match parseChars ((l.drop 1).dropLast) with
    | .ok a => some (.fromDate a, none)
    | .err s => some (.zero, some (.parseFail s))
    | .panicked => none

/-- `Time.UnmarshalText`: delegates the whole input to the core parser and
assigns `t.Time` the returned time in every non-panicking case. -/
def unmarshalTextChars (_prior : GoTimeVal) (l : List Char) :
    Option (GoTimeVal × Option UnmarshalErr) :=
  match parseChars l with
  | .ok a => some (.fromDate a, none)
  | .err s => some (.zero, some (.parseFail s))
  | .panicked => none

/-- `Time.UnmarshalJSON` on a string input. -/
def Time_UnmarshalJSON (prior : GoTimeVal) (data : String) :
    Option (GoTimeVal × Option UnmarshalErr) :=
  unmarshalJSONChars prior data.data

/-- `Time.UnmarshalText` on a string input. -/
def Time_UnmarshalText (prior : GoTimeVal) (data : String) :
    Option (GoTimeVal × Option UnmarshalErr) :=
  unmarshalTextChars prior data.data

/-! ### Concrete evaluations mirroring the test vectors of `iso8601_test.go` -/
example : ParseISO8601Timestamp "1900-12-31T00:10:20Z" =
    .ok ⟨1900, 12, 31, 0, 10, 20, 0, GoLoc.utc⟩ := by decide
example : ParseISO8601Timestamp "19001231T001020Z" =
    .ok ⟨1900, 12, 31, 0, 10, 20, 0, GoLoc.utc⟩ := by decide
example : ParseISO8601Timestamp "1900-12-31 001020Z" =
    .ok ⟨1900, 12, 31, 0, 10, 20, 0, GoLoc.utc⟩ := by decide
example : ParseISO8601Timestamp "19001231t00:10:20Z" =
    .ok ⟨1900, 12, 31, 0, 10, 20, 0, GoLoc.utc⟩ := by decide
example : ParseISO8601Timestamp "1900-12-31" =
    .ok ⟨1900, 12, 31, 0, 0, 0, 0, GoLoc.utc⟩ := by decide
example : ParseISO8601Timestamp "19001231" =
    .ok ⟨1900, 12, 31, 0, 0, 0, 0, GoLoc.utc⟩ := by decide
example : ParseISO8601Timestamp "2020-02-17T11:39:27.658731+00:00" =
    .ok ⟨2020, 2, 17, 11, 39, 27, 658731000, GoLoc.fixed 0⟩ := by decide
example : ParseISO8601Timestamp "2020-02-17T11:39:27.6Z" =
    .ok ⟨2020, 2, 17, 11, 39, 27, 600000000, GoLoc.utc⟩ := by decide
example : ParseISO8601Timestamp "2020-02-17T11:39:27.658731-02:30" =
    .ok ⟨2020, 2, 17, 11, 39, 27, 658731000, GoLoc.fixed (-9000)⟩ := by decide
example : ParseISO8601Timestamp "2020-02-17T11:39:27.658731-0230" =
    .ok ⟨2020, 2, 17, 11, 39, 27, 658731000, GoLoc.fixed (-9000)⟩ := by decide
example : ParseISO8601Timestamp "1900-12-31T00:10:60Z" =
    .ok ⟨1900, 12, 31, 0, 10, 60, 0, GoLoc.utc⟩ := by decide
example : ParseISO8601Timestamp "1900-12-31T00:10:61Z" =
    .ok ⟨1900, 12, 31, 0, 10, 61, 0, GoLoc.utc⟩ := by decide
example : ParseISO8601Timestamp "1900-1231T00:10:20Z" =
    .err "1900-1231T00:10:20Z" := by decide
example : ParseISO8601Timestamp "1900-12-31T00:1020Z" =
    .err "1900-12-31T00:1020Z" := by decide
example : ParseISO8601Timestamp "2020-02-17T11:39:27+05" = .panicked := by decide
example : ParseISO8601Timestamp "2020-02-17T11:39:27+05:" = .panicked := by decide
example : ParseISO8601Timestamp "0000-12-31" =
    .ok ⟨0, 12, 31, 0, 0, 0, 0, GoLoc.utc⟩ := by decide
example : Time_UnmarshalJSON .zero "null" = some (.zero, none) := by decide
example : Time_UnmarshalJSON .zero "1" =
    some (.zero, some (.notAString "1")) := by decide
example : Time_UnmarshalJSON (.fromDate ⟨1900, 12, 31, 0, 0, 0, 0, .utc⟩) "\"x\"" =
    some (.zero, some (.parseFail "x")) := by decide

/-! ### Basic facts about the character classes and group scanners -/

theorem digitOk_bounds {c : Char} (h : digitOk c = true) :
    48 ≤ c.toNat ∧ c.toNat ≤ 57 := by
  simpa [digitOk] using h

theorem monthOk_first {a b : Char} (h : monthOk a b = true) :
    48 ≤ a.toNat ∧ a.toNat ≤ 49 := by
  simp [monthOk] at h
  omega

theorem dayOk_first {a b : Char} (h : dayOk a b = true) :
    48 ≤ a.toNat ∧ a.toNat ≤ 51 := by
  simp [dayOk] at h
  omega

theorem minuteOk_first {a b : Char} (h : minuteOk a b = true) :
    48 ≤ a.toNat ∧ a.toNat ≤ 53 := by
  simp [minuteOk] at h
  omega

theorem secondOk_first {a b : Char} (h : secondOk a b = true) :
    48 ≤ a.toNat ∧ a.toNat ≤ 54 := by
  simp [secondOk] at h
  omega

theorem natOfDigits4_le {a b c d : Char} (ha : digitOk a = true)
    (hb : digitOk b = true) (hc : digitOk c = true) (hd : digitOk d = true) :
    natOfDigits [a, b, c, d] ≤ 9999 := by
  have h1 := digitOk_bounds ha
  have h2 := digitOk_bounds hb
  have h3 := digitOk_bounds hc
  have h4 := digitOk_bounds hd
  simp [natOfDigits, digVal]
  omega

theorem pYear_inv {l : List Char} {p : Nat × List Char} (h : pYear l = some p) :
    ∃ a b c d, l = a :: b :: c :: d :: p.2 ∧ digitOk a = true ∧
      digitOk b = true ∧ digitOk c = true ∧ digitOk d = true ∧
      p.1 = natOfDigits [a, b, c, d] := by
  obtain ⟨v, rest⟩ := p
  match l with
  | [] => simp [pYear] at h
  | [_] => simp [pYear] at h
  | [_, _] => simp [pYear] at h
  | [_, _, _] => simp [pYear] at h
  | a :: b :: c :: d :: r =>
    simp only [pYear] at h
    by_cases hc4 : (digitOk a && digitOk b && digitOk c && digitOk d) = true
    · rw [if_pos hc4] at h
      simp only [Option.some.injEq, Prod.mk.injEq] at h
      obtain ⟨hv, hr⟩ := h
      simp only [Bool.and_eq_true] at hc4
      exact ⟨a, b, c, d, by rw [← hr], hc4.1.1.1, hc4.1.1.2, hc4.1.2, hc4.2,
        hv.symm⟩
    · rw [if_neg hc4] at h
      exact absurd h (by simp)

theorem p2_inv {ok : Char → Char → Bool} {l : List Char} {p : Nat × List Char}
    (h : p2 ok l = some p) :
    ∃ a b, l = a :: b :: p.2 ∧ ok a b = true ∧ p.1 = natOfDigits [a, b] := by
  obtain ⟨v, rest⟩ := p
  match l with
  | [] => simp [p2] at h
  | [_] => simp [p2] at h
  | a :: b :: r =>
    simp only [p2] at h
    by_cases hc : ok a b = true
    · rw [if_pos hc] at h
      simp only [Option.some.injEq, Prod.mk.injEq] at h
      exact ⟨a, b, by rw [← h.2], hc, h.1.symm⟩
    · rw [if_neg hc] at h
      exact absurd h (by simp)

theorem pChar_inv {c : Char} {l r : List Char} (h : pChar c l = some r) :
    l = c :: r := by
  match l with
  | [] => simp [pChar] at h
  | x :: t =>
    simp only [pChar] at h
    by_cases hx : x = c
    · rw [if_pos hx] at h
      simp only [Option.some.injEq] at h
      rw [hx, h]
    · rw [if_neg hx] at h
      exact absurd h (by simp)

theorem pSep_inv {l r : List Char} (h : pSep l = some r) :
    ∃ c, l = c :: r ∧ sepOk c = true := by
  match l with
  | [] => simp [pSep] at h
  | x :: t =>
    simp only [pSep] at h
    by_cases hx : sepOk x = true
    · rw [if_pos hx] at h
      simp only [Option.some.injEq] at h
      exact ⟨x, by rw [h], hx⟩
    · rw [if_neg hx] at h
      exact absurd h (by simp)

theorem pFrac_inv {l : List Char} {p : Option (List Char) × List Char}
    {ds : List Char} (h : pFrac l = some p) (hds : p.1 = some ds) :
    1 ≤ ds.length ∧ ds.length ≤ 9 := by
  match l with
  | [] =>
    simp only [pFrac, Option.some.injEq] at h
    rw [← h] at hds
    simp at hds
  | c :: r =>
    simp only [pFrac] at h
    by_cases hc : (c = '.' || c = ',') = true
    · rw [if_pos hc] at h
      by_cases hlen : 1 ≤ (r.takeWhile digitOk).length ∧ (r.takeWhile digitOk).length ≤ 9
      · rw [if_pos hlen] at h
        simp only [Option.some.injEq] at h
        rw [← h] at hds
        simp only at hds
        obtain rfl : r.takeWhile digitOk = ds := by
          simpa using hds
        exact hlen
      · rw [if_neg hlen] at h
        exact absurd h (by simp)
    · rw [if_neg hc] at h
      simp only [Option.some.injEq] at h
      rw [← h] at hds
      simp at hds

/-! ### Positional shape facts for each regex variant

Each lemma records, for a successful match, the characters forced at a few
fixed positions of the input (enough to separate the six variants pairwise
and to reject mixed-separator strings), together with the bound on the year
capture imposed by the four-digit year group. -/

theorem variant0_facts {l : List Char} {res : MatchRes}
    (h : variant0 l = some res) :
    l.get? 4 = some '-' ∧ l.get? 7 = some '-' ∧ l.get? 10 ≠ none ∧
    l.get? 13 = some ':' ∧ l.get? 16 = some ':' ∧ res.yearOf ≤ 9999 := by
  simp only [variant0, Option.bind_eq_some, Option.map_eq_some'] at h
  obtain ⟨yr, hyr, r1, hr1, mo, hmo, r2, hr2, dy, hdy, r3, hr3, hr, hhr,
    r4, hr4, mi, hmi, r5, hr5, se, hse, fr, hfr, tz, htz, hres⟩ := h
  obtain ⟨a, b, c, d, hl, ha, hb, hc, hd, hval⟩ := pYear_inv hyr
  have h1 := pChar_inv hr1
  obtain ⟨m1, m2, hl2, hmk, -⟩ := p2_inv hmo
  have h2 := pChar_inv hr2
  obtain ⟨d1, d2, hl3, hdk, -⟩ := p2_inv hdy
  obtain ⟨sc, hl4, hsc⟩ := pSep_inv hr3
  obtain ⟨e1, e2, hl5, hhk, -⟩ := p2_inv hhr
  have h3 := pChar_inv hr4
  obtain ⟨n1, n2, hl6, hnk, -⟩ := p2_inv hmi
  have h4 := pChar_inv hr5
  subst hl
  rw [h1, hl2, h2, hl3, hl4, hl5, h3, hl6, h4]
  refine ⟨rfl, rfl, by simp, rfl, rfl, ?_⟩
  rw [← hres]
  simpa [MatchRes.yearOf, hval] using natOfDigits4_le ha hb hc hd

theorem variant1_facts {l : List Char} {res : MatchRes}
    (h : variant1 l = some res) :
    (∃ c, l.get? 4 = some c ∧ 48 ≤ c.toNat ∧ c.toNat ≤ 49) ∧
    (∃ c, l.get? 6 = some c ∧ 48 ≤ c.toNat ∧ c.toNat ≤ 51) ∧
    l.get? 8 ≠ none ∧
    (∃ c, l.get? 11 = some c ∧ 48 ≤ c.toNat ∧ c.toNat ≤ 53) ∧
    (∃ c, l.get? 13 = some c ∧ 48 ≤ c.toNat ∧ c.toNat ≤ 54) ∧
    res.yearOf ≤ 9999 := by
  simp only [variant1, Option.bind_eq_some, Option.map_eq_some'] at h
  obtain ⟨yr, hyr, mo, hmo, dy, hdy, r3, hr3, hr, hhr, mi, hmi, se, hse,
    fr, hfr, tz, htz, hres⟩ := h
  obtain ⟨a, b, c, d, hl, ha, hb, hc, hd, hval⟩ := pYear_inv hyr
  obtain ⟨m1, m2, hl2, hmk, -⟩ := p2_inv hmo
  obtain ⟨d1, d2, hl3, hdk, -⟩ := p2_inv hdy
  obtain ⟨sc, hl4, hsc⟩ := pSep_inv hr3
  obtain ⟨e1, e2, hl5, hhk, -⟩ := p2_inv hhr
  obtain ⟨n1, n2, hl6, hnk, -⟩ := p2_inv hmi
  obtain ⟨s1, s2, hl7, hsk, -⟩ := p2_inv hse
  subst hl
  rw [hl2, hl3, hl4, hl5, hl6, hl7]
  refine ⟨⟨m1, rfl, monthOk_first hmk⟩, ⟨d1, rfl, dayOk_first hdk⟩, by simp,
    ⟨n1, rfl, minuteOk_first hnk⟩, ⟨s1, rfl, secondOk_first hsk⟩, ?_⟩
  rw [← hres]
  simpa [MatchRes.yearOf, hval] using natOfDigits4_le ha hb hc hd

theorem variant2_facts {l : List Char} {res : MatchRes}
    (h : variant2 l = some res) :
    l.get? 4 = some '-' ∧ l.get? 7 = some '-' ∧ l.get? 10 ≠ none ∧
    (∃ c, l.get? 13 = some c ∧ 48 ≤ c.toNat ∧ c.toNat ≤ 53) ∧
    (∃ c, l.get? 15 = some c ∧ 48 ≤ c.toNat ∧ c.toNat ≤ 54) ∧
    res.yearOf ≤ 9999 := by
  simp only [variant2, Option.bind_eq_some, Option.map_eq_some'] at h
  obtain ⟨yr, hyr, r1, hr1, mo, hmo, r2, hr2, dy, hdy, r3, hr3, hr, hhr,
    mi, hmi, se, hse, fr, hfr, tz, htz, hres⟩ := h
  obtain ⟨a, b, c, d, hl, ha, hb, hc, hd, hval⟩ := pYear_inv hyr
  have h1 := pChar_inv hr1
  obtain ⟨m1, m2, hl2, hmk, -⟩ := p2_inv hmo
  have h2 := pChar_inv hr2
  obtain ⟨d1, d2, hl3, hdk, -⟩ := p2_inv hdy
  obtain ⟨sc, hl4, hsc⟩ := pSep_inv hr3
  obtain ⟨e1, e2, hl5, hhk, -⟩ := p2_inv hhr
  obtain ⟨n1, n2, hl6, hnk, -⟩ := p2_inv hmi
  obtain ⟨s1, s2, hl7, hsk, -⟩ := p2_inv hse
  subst hl
  rw [h1, hl2, h2, hl3, hl4, hl5, hl6, hl7]
  refine ⟨rfl, rfl, by simp, ⟨n1, rfl, minuteOk_first hnk⟩,
    ⟨s1, rfl, secondOk_first hsk⟩, ?_⟩
  rw [← hres]
  simpa [MatchRes.yearOf, hval] using natOfDigits4_le ha hb hc hd

theorem variant3_facts {l : List Char} {res : MatchRes}
    (h : variant3 l = some res) :
    (∃ c, l.get? 4 = some c ∧ 48 ≤ c.toNat ∧ c.toNat ≤ 49) ∧
    (∃ c, l.get? 6 = some c ∧ 48 ≤ c.toNat ∧ c.toNat ≤ 51) ∧
    l.get? 8 ≠ none ∧ l.get? 11 = some ':' ∧ l.get? 14 = some ':' ∧
    res.yearOf ≤ 9999 := by
  simp only [variant3, Option.bind_eq_some, Option.map_eq_some'] at h
  obtain ⟨yr, hyr, mo, hmo, dy, hdy, r3, hr3, hr, hhr, r4, hr4, mi, hmi,
    r5, hr5, se, hse, fr, hfr, tz, htz, hres⟩ := h
  obtain ⟨a, b, c, d, hl, ha, hb, hc, hd, hval⟩ := pYear_inv hyr
  obtain ⟨m1, m2, hl2, hmk, -⟩ := p2_inv hmo
  obtain ⟨d1, d2, hl3, hdk, -⟩ := p2_inv hdy
  obtain ⟨sc, hl4, hsc⟩ := pSep_inv hr3
  obtain ⟨e1, e2, hl5, hhk, -⟩ := p2_inv hhr
  have h3 := pChar_inv hr4
  obtain ⟨n1, n2, hl6, hnk, -⟩ := p2_inv hmi
  have h4 := pChar_inv hr5
  subst hl
  rw [hl2, hl3, hl4, hl5, h3, hl6, h4]
  refine ⟨⟨m1, rfl, monthOk_first hmk⟩, ⟨d1, rfl, dayOk_first hdk⟩, by simp,
    rfl, rfl, ?_⟩
  rw [← hres]
  simpa [MatchRes.yearOf, hval] using natOfDigits4_le ha hb hc hd

theorem variant4_facts {l : List Char} {res : MatchRes}
    (h : variant4 l = some res) :
    l.get? 4 = some '-' ∧ l.get? 7 = some '-' ∧ l.get? 10 = none ∧
    res.yearOf ≤ 9999 := by
  simp only [variant4, Option.bind_eq_some] at h
  obtain ⟨yr, hyr, r1, hr1, mo, hmo, r2, hr2, dy, hdy, hres⟩ := h
  obtain ⟨a, b, c, d, hl, ha, hb, hc, hd, hval⟩ := pYear_inv hyr
  have h1 := pChar_inv hr1
  obtain ⟨m1, m2, hl2, hmk, -⟩ := p2_inv hmo
  have h2 := pChar_inv hr2
  obtain ⟨d1, d2, hl3, hdk, -⟩ := p2_inv hdy
  by_cases hnil : dy.2 = []
  · rw [if_pos hnil] at hres
    simp only [Option.some.injEq] at hres
    subst hl
    rw [h1, hl2, h2, hl3, hnil]
    refine ⟨rfl, rfl, rfl, ?_⟩
    rw [← hres]
    simpa [MatchRes.yearOf, hval] using natOfDigits4_le ha hb hc hd
  · rw [if_neg hnil] at hres
    exact absurd hres (by simp)

theorem variant5_facts {l : List Char} {res : MatchRes}
    (h : variant5 l = some res) :
    (∃ c, l.get? 4 = some c ∧ 48 ≤ c.toNat ∧ c.toNat ≤ 49) ∧
    (∃ c, l.get? 6 = some c ∧ 48 ≤ c.toNat ∧ c.toNat ≤ 51) ∧
    l.get? 8 = none ∧ res.yearOf ≤ 9999 := by
  simp only [variant5, Option.bind_eq_some] at h
  obtain ⟨yr, hyr, mo, hmo, dy, hdy, hres⟩ := h
  obtain ⟨a, b, c, d, hl, ha, hb, hc, hd, hval⟩ := pYear_inv hyr
  obtain ⟨m1, m2, hl2, hmk, -⟩ := p2_inv hmo
  obtain ⟨d1, d2, hl3, hdk, -⟩ := p2_inv hdy
  by_cases hnil : dy.2 = []
  · rw [if_pos hnil] at hres
    simp only [Option.some.injEq] at hres
    subst hl
    rw [hl2, hl3, hnil]
    refine ⟨⟨m1, rfl, monthOk_first hmk⟩, ⟨d1, rfl, dayOk_first hdk⟩, rfl, ?_⟩
    rw [← hres]
    simpa [MatchRes.yearOf, hval] using natOfDigits4_le ha hb hc hd
  · rw [if_neg hnil] at hres
    exact absurd hres (by simp)

/-! ### Pairwise mutual exclusivity of the six variants -/

theorem excl01 {l : List Char} {r r' : MatchRes} (h : variant0 l = some r)
    (h' : variant1 l = some r') : False := by
  obtain ⟨p4, -, -, -, -, -⟩ := variant0_facts h
  obtain ⟨⟨c, hc, hlo, hhi⟩, -, -, -, -, -⟩ := variant1_facts h'
  rw [p4, Option.some.injEq] at hc
  subst hc
  have h45 : ('-').toNat = 45 := rfl
  omega

theorem excl02 {l : List Char} {r r' : MatchRes} (h : variant0 l = some r)
    (h' : variant2 l = some r') : False := by
  obtain ⟨-, -, -, p13, -, -⟩ := variant0_facts h
  obtain ⟨-, -, -, ⟨c, hc, hlo, hhi⟩, -, -⟩ := variant2_facts h'
  rw [p13, Option.some.injEq] at hc
  subst hc
  have h58 : (':').toNat = 58 := rfl
  omega

theorem excl03 {l : List Char} {r r' : MatchRes} (h : variant0 l = some r)
    (h' : variant3 l = some r') : False := by
  obtain ⟨p4, -, -, -, -, -⟩ := variant0_facts h
  obtain ⟨⟨c, hc, hlo, hhi⟩, -, -, -, -, -⟩ := variant3_facts h'
  rw [p4, Option.some.injEq] at hc
  subst hc
  have h45 : ('-').toNat = 45 := rfl
  omega

theorem excl04 {l : List Char} {r r' : MatchRes} (h : variant0 l = some r)
    (h' : variant4 l = some r') : False := by
  obtain ⟨-, -, p10, -, -, -⟩ := variant0_facts h
  obtain ⟨-, -, p10n, -⟩ := variant4_facts h'
  exact p10 p10n

theorem excl05 {l : List Char} {r r' : MatchRes} (h : variant0 l = some r)
    (h' : variant5 l = some r') : False := by
  obtain ⟨p4, -, -, -, -, -⟩ := variant0_facts h
  obtain ⟨⟨c, hc, hlo, hhi⟩, -, -, -⟩ := variant5_facts h'
  rw [p4, Option.some.injEq] at hc
  subst hc
  have h45 : ('-').toNat = 45 := rfl
  omega

theorem excl12 {l : List Char} {r r' : MatchRes} (h : variant1 l = some r)
    (h' : variant2 l = some r') : False := by
  obtain ⟨⟨c, hc, hlo, hhi⟩, -, -, -, -, -⟩ := variant1_facts h
  obtain ⟨p4, -, -, -, -, -⟩ := variant2_facts h'
  rw [p4, Option.some.injEq] at hc
  subst hc
  have h45 : ('-').toNat = 45 := rfl
  omega

theorem excl13 {l : List Char} {r r' : MatchRes} (h : variant1 l = some r)
    (h' : variant3 l = some r') : False := by
  obtain ⟨-, -, -, ⟨c, hc, hlo, hhi⟩, -, -⟩ := variant1_facts h
  obtain ⟨-, -, -, p11, -, -⟩ := variant3_facts h'
  rw [p11, Option.some.injEq] at hc
  subst hc
  have h58 : (':').toNat = 58 := rfl
  omega

theorem excl14 {l : List Char} {r r' : MatchRes} (h : variant1 l = some r)
    (h' : variant4 l = some r') : False := by
  obtain ⟨⟨c, hc, hlo, hhi⟩, -, -, -, -, -⟩ := variant1_facts h
  obtain ⟨p4, -, -, -⟩ := variant4_facts h'
  rw [p4, Option.some.injEq] at hc
  subst hc
  have h45 : ('-').toNat = 45 := rfl
  omega

theorem excl15 {l : List Char} {r r' : MatchRes} (h : variant1 l = some r)
    (h' : variant5 l = some r') : False := by
  obtain ⟨-, -, p8, -, -, -⟩ := variant1_facts h
  obtain ⟨-, -, p8n, -⟩ := variant5_facts h'
  exact p8 p8n

theorem excl23 {l : List Char} {r r' : MatchRes} (h : variant2 l = some r)
    (h' : variant3 l = some r') : False := by
  obtain ⟨p4, -, -, -, -, -⟩ := variant2_facts h
  obtain ⟨⟨c, hc, hlo, hhi⟩, -, -, -, -, -⟩ := variant3_facts h'
  rw [p4, Option.some.injEq] at hc
  subst hc
  have h45 : ('-').toNat = 45 := rfl
  omega

theorem excl24 {l : List Char} {r r' : MatchRes} (h : variant2 l = some r)
    (h' : variant4 l = some r') : False := by
  obtain ⟨-, -, p10, -, -, -⟩ := variant2_facts h
  obtain ⟨-, -, p10n, -⟩ := variant4_facts h'
  exact p10 p10n

theorem excl25 {l : List Char} {r r' : MatchRes} (h : variant2 l = some r)
    (h' : variant5 l = some r') : False := by
  obtain ⟨p4, -, -, -, -, -⟩ := variant2_facts h
  obtain ⟨⟨c, hc, hlo, hhi⟩, -, -, -⟩ := variant5_facts h'
  rw [p4, Option.some.injEq] at hc
  subst hc
  have h45 : ('-').toNat = 45 := rfl
  omega

theorem excl34 {l : List Char} {r r' : MatchRes} (h : variant3 l = some r)
    (h' : variant4 l = some r') : False := by
  obtain ⟨⟨c, hc, hlo, hhi⟩, -, -, -, -, -⟩ := variant3_facts h
  obtain ⟨p4, -, -, -⟩ := variant4_facts h'
  rw [p4, Option.some.injEq] at hc
  subst hc
  have h45 : ('-').toNat = 45 := rfl
  omega

theorem excl35 {l : List Char} {r r' : MatchRes} (h : variant3 l = some r)
    (h' : variant5 l = some r') : False := by
  obtain ⟨-, -, p8, -, -, -⟩ := variant3_facts h
  obtain ⟨-, -, p8n, -⟩ := variant5_facts h'
  exact p8 p8n

theorem excl45 {l : List Char} {r r' : MatchRes} (h : variant4 l = some r)
    (h' : variant5 l = some r') : False := by
  obtain ⟨p4, -, -, -⟩ := variant4_facts h
  obtain ⟨⟨c, hc, hlo, hhi⟩, -, -, -⟩ := variant5_facts h'
  rw [p4, Option.some.injEq] at hc
  subst hc
  have h45 : ('-').toNat = 45 := rfl
  omega

theorem variantAt_excl {l : List Char} {i j : Nat} {r r' : MatchRes}
    (hi : i < 6) (hj : j < 6) (hij : i ≠ j)
    (h : variantAt i l = some r) (h' : variantAt j l = some r') : False := by
  interval_cases i <;> interval_cases j <;> simp only [variantAt] at h h'
  · exact hij rfl
  · exact excl01 h h'
  · exact excl02 h h'
  · exact excl03 h h'
  · exact excl04 h h'
  · exact excl05 h h'
  · exact excl01 h' h
  · exact hij rfl
  · exact excl12 h h'
  · exact excl13 h h'
  · exact excl14 h h'
  · exact excl15 h h'
  · exact excl02 h' h
  · exact excl12 h' h
  · exact hij rfl
  · exact excl23 h h'
  · exact excl24 h h'
  · exact excl25 h h'
  · exact excl03 h' h
  · exact excl13 h' h
  · exact excl23 h' h
  · exact hij rfl
  · exact excl34 h h'
  · exact excl35 h h'
  · exact excl04 h' h
  · exact excl14 h' h
  · exact excl24 h' h
  · exact excl34 h' h
  · exact hij rfl
  · exact excl45 h h'
  · exact excl05 h' h
  · exact excl15 h' h
  · exact excl25 h' h
  · exact excl35 h' h
  · exact excl45 h' h
  · exact hij rfl

theorem firstMatch_of_variant {l : List Char} {i : Nat} {r : MatchRes}
    (hi : i < 6) (h : variantAt i l = some r) : firstMatch l = some r := by
  interval_cases i <;> simp only [variantAt] at h
  · simp [firstMatch, h]
  · have h0 : variant0 l = none := by
      cases hv : variant0 l with
      | none => rfl
      | some r0 => exact (excl01 hv h).elim
    simp [firstMatch, h0, h]
  · have h0 : variant0 l = none := by
      cases hv : variant0 l with
      | none => rfl
      | some r0 => exact (excl02 hv h).elim
    have h1 : variant1 l = none := by
      cases hv : variant1 l with
      | none => rfl
      | some r1 => exact (excl12 hv h).elim
    simp [firstMatch, h0, h1, h]
  · have h0 : variant0 l = none := by
      cases hv : variant0 l with
      | none => rfl
      | some r0 => exact (excl03 hv h).elim
    have h1 : variant1 l = none := by
      cases hv : variant1 l with
      | none => rfl
      | some r1 => exact (excl13 hv h).elim
    have h2 : variant2 l = none := by
      cases hv : variant2 l with
      | none => rfl
      | some r2 => exact (excl23 hv h).elim
    simp [firstMatch, h0, h1, h2, h]
  · have h0 : variant0 l = none := by
      cases hv : variant0 l with
      | none => rfl
      | some r0 => exact (excl04 hv h).elim
    have h1 : variant1 l = none := by
      cases hv : variant1 l with
      | none => rfl
      | some r1 => exact (excl14 hv h).elim
    have h2 : variant2 l = none := by
      cases hv : variant2 l with
      | none => rfl
      | some r2 => exact (excl24 hv h).elim
    have h3 : variant3 l = none := by
      cases hv : variant3 l with
      | none => rfl
      | some r3 => exact (excl34 hv h).elim
    simp [firstMatch, h0, h1, h2, h3, h]
  · have h0 : variant0 l = none := by
      cases hv : variant0 l with
      | none => rfl
      | some r0 => exact (excl05 hv h).elim
    have h1 : variant1 l = none := by
      cases hv : variant1 l with
      | none => rfl
      | some r1 => exact (excl15 hv h).elim
    have h2 : variant2 l = none := by
      cases hv : variant2 l with
      | none => rfl
      | some r2 => exact (excl25 hv h).elim
    have h3 : variant3 l = none := by
      cases hv : variant3 l with
      | none => rfl
      | some r3 => exact (excl35 hv h).elim
    have h4 : variant4 l = none := by
      cases hv : variant4 l with
      | none => rfl
      | some r4 => exact (excl45 hv h).elim
    simp [firstMatch, h0, h1, h2, h3, h4, h]

/-! ### Helpers connecting `firstMatch`, `convert` and `parseChars` -/

theorem firstMatch_inv {l : List Char} {res : MatchRes}
    (h : firstMatch l = some res) :
    variant0 l = some res ∨ variant1 l = some res ∨ variant2 l = some res ∨
    variant3 l = some res ∨ variant4 l = some res ∨ variant5 l = some res := by
  unfold firstMatch at h
  cases h0 : variant0 l with
  | some r =>
    rw [h0] at h
    exact Or.inl h
  | none =>
  rw [h0] at h
  cases h1 : variant1 l with
  | some r =>
    rw [h1] at h
    exact Or.inr (Or.inl h)
  | none =>
  rw [h1] at h
  cases h2 : variant2 l with
  | some r =>
    rw [h2] at h
    exact Or.inr (Or.inr (Or.inl h))
  | none =>
  rw [h2] at h
  cases h3 : variant3 l with
  | some r =>
    rw [h3] at h
    exact Or.inr (Or.inr (Or.inr (Or.inl h)))
  | none =>
  rw [h3] at h
  cases h4 : variant4 l with
  | some r =>
    rw [h4] at h
    exact Or.inr (Or.inr (Or.inr (Or.inr (Or.inl h))))
  | none =>
  rw [h4] at h
  exact Or.inr (Or.inr (Or.inr (Or.inr (Or.inr h))))

theorem firstMatch_year_le {l : List Char} {res : MatchRes}
    (h : firstMatch l = some res) : res.yearOf ≤ 9999 := by
  rcases firstMatch_inv h with hv | hv | hv | hv | hv | hv
  · exact (variant0_facts hv).2.2.2.2.2
  · exact (variant1_facts hv).2.2.2.2.2
  · exact (variant2_facts hv).2.2.2.2.2
  · exact (variant3_facts hv).2.2.2.2.2
  · exact (variant4_facts hv).2.2.2
  · exact (variant5_facts hv).2.2.2

theorem convert_ne_err (res : MatchRes) (s : String) : convert res ≠ .err s := by
  cases res with
  | dateOnly y m d => simp [convert]
  | full y m d hh mi se fr tz =>
    simp only [convert]
    cases resolveLoc tz with
    | some loc => simp
    | none => simp

theorem convert_ok_year {res : MatchRes} {a : TimeDateArgs}
    (h : convert res = .ok a) : a.year = res.yearOf := by
  cases res with
  | dateOnly y m d =>
    simp only [convert, ParseOutcome.ok.injEq] at h
    rw [← h]
    rfl
  | full y m d hh mi se fr tz =>
    simp only [convert] at h
    cases hr : resolveLoc tz with
    | some loc =>
      rw [hr] at h
      simp only [ParseOutcome.ok.injEq] at h
      rw [← h]
      rfl
    | none =>
      rw [hr] at h
      exact absurd h (by simp)

theorem parseChars_err_of {l : List Char} (h0 : variant0 l = none)
    (h1 : variant1 l = none) (h2 : variant2 l = none) (h3 : variant3 l = none)
    (h4 : variant4 l = none) (h5 : variant5 l = none) :
    parseChars l = .err (String.mk l) := by
  unfold parseChars firstMatch
  rw [h0, h1, h2, h3, h4, h5]

/-! ### Right-padding of the fractional capture -/

theorem foldl_digVal_replicate (a k : Nat) :
    List.foldl (fun x c => x * 10 + digVal c) a (List.replicate k '0') =
      a * 10 ^ k := by
  induction k generalizing a with
  | zero => simp
  | succ n ih =>
    rw [List.replicate_succ, List.foldl_cons, ih]
    have hz : digVal '0' = 0 := rfl
    rw [hz, pow_succ]
    ring

theorem natOfDigits_padTo9 (l : List Char) :
    natOfDigits (padTo9 l) = natOfDigits l * 10 ^ (9 - l.length) := by
  unfold padTo9 natOfDigits
  rw [List.foldl_append]
  exact foldl_digVal_replicate _ _

/-! ### Claim theorems -/

/-- Claim C2 (refuting evaluation): on an otherwise well-formed timestamp
whose offset is a sign followed by a 2-digit hour only (and likewise with a
trailing colon and no minute digits), the regex matches but the offset
extraction indexes `tzStr[3]` (resp. slices `tzStr[4:6]`) out of range, so
`ParseISO8601Timestamp` panics instead of succeeding with minute 0. -/
theorem spec_c2 :
    ParseISO8601Timestamp "2020-02-17T11:39:27+05" = ParseOutcome.panicked ∧
    ParseISO8601Timestamp "2020-02-17T11:39:27+05:" = ParseOutcome.panicked := by
  constructor
  · decide
  · decide

/-- Claim C3 (counterexample): the input `"0000-12-31"` is accepted and its
parsed year field is 0, which lies outside the range 1-9999 the claim
asserts. -/
theorem spec_c3_counterexample :
    ParseISO8601Timestamp "0000-12-31" =
      ParseOutcome.ok ⟨0, 12, 31, 0, 0, 0, 0, GoLoc.utc⟩ ∧
    ¬ 1 ≤ (0 : Nat) := by
  constructor
  · decide
  · decide

/-- Claim C3 (amended): for every accepted input the parsed year field lies
in the range 0-9999 — the 4-digit year pattern bounds it above by 9999, but
the all-zero year `0000` is accepted, so the lower bound is 0, not 1. -/
theorem spec_c3 : ∀ (s : String) (a : TimeDateArgs),
    ParseISO8601Timestamp s = .ok a → a.year ≤ 9999 := by
  intro s a h
  unfold ParseISO8601Timestamp parseChars at h
  cases hm : firstMatch s.data with
  | none =>
    rw [hm] at h
    exact absurd h (by simp)
  | some r =>
    rw [hm] at h
    rw [convert_ok_year h]
    exact firstMatch_year_le hm

/-- Claim C3 witness: the amended bound applied to the accepted input
`"1900-12-31"`. -/
theorem spec_c3_witness :
    (⟨1900, 12, 31, 0, 0, 0, 0, GoLoc.utc⟩ : TimeDateArgs).year ≤ 9999 :=
  spec_c3 "1900-12-31" ⟨1900, 12, 31, 0, 0, 0, 0, GoLoc.utc⟩ (by decide)

/-- Claim C4: `ParseISO8601Timestamp` returns an error exactly when no
regex variant matches the input; the error carries the original input
verbatim (the embedded `err` payload is the string interpolated into the
message, and the accompanying `time.Time` return is the zero value
`time.Time{}`, carried by no other constructor). -/
theorem spec_c4 : ∀ s : String,
    (ParseISO8601Timestamp s = .err s ↔ firstMatch s.data = none) ∧
    (∀ e, ParseISO8601Timestamp s = .err e →
      e = s ∧ firstMatch s.data = none) := by
  intro s
  have key : ∀ e, ParseISO8601Timestamp s = .err e →
      e = s ∧ firstMatch s.data = none := by
    intro e h
    unfold ParseISO8601Timestamp parseChars at h
    cases hm : firstMatch s.data with
    | none =>
      rw [hm] at h
      have : String.mk s.data = e := by
        have := h
        simp only [ParseOutcome.err.injEq] at this
        exact this
      exact ⟨this.symm, rfl⟩
    | some r =>
      rw [hm] at h
      exact absurd h (convert_ne_err r e)
  refine ⟨⟨fun h => (key s h).2, fun h => ?_⟩, key⟩
  unfold ParseISO8601Timestamp parseChars
  rw [h]

/-- Claim C4 witness: a non-matching input yields the error carrying that
input. -/
theorem spec_c4_witness :
    ParseISO8601Timestamp "not-a-timestamp" =
      ParseOutcome.err "not-a-timestamp" :=
  (spec_c4 "not-a-timestamp").1.mpr (by decide)

/-- Claim C7: the six regex variants are mutually exclusive — whenever one
matches, every other variant rejects — so the fixed trial order only
determines which pattern reports the match: any matching variant yields
exactly the result `firstMatch` returns. -/
theorem spec_c7 : ∀ (l : List Char) (i j : Nat), i < 6 → j < 6 → i ≠ j →
    (∀ r, variantAt i l = some r → variantAt j l = none) ∧
    (∀ r, variantAt i l = some r → firstMatch l = some r) := by
  intro l i j hi hj hij
  constructor
  · intro r h
    cases hv : variantAt j l with
    | none => rfl
    | some r2 => exact (variantAt_excl hi hj hij h hv).elim
  · intro r h
    exact firstMatch_of_variant hi h

/-- Claim C7 witness: the date-only input `"1900-12-31"` is matched by
variant 4; exclusivity forces variant 0 to reject it, and the overall match
is the variant-4 result. -/
theorem spec_c7_witness :
    variantAt 0 ("1900-12-31".data) = none ∧
    firstMatch ("1900-12-31".data) = some (MatchRes.dateOnly 1900 12 31) := by
  constructor
  · exact (spec_c7 ("1900-12-31".data) 4 0 (by decide) (by decide)
      (by decide)).1 (MatchRes.dateOnly 1900 12 31) (by decide)
  · exact (spec_c7 ("1900-12-31".data) 4 0 (by decide) (by decide)
      (by decide)).2 (MatchRes.dateOnly 1900 12 31) (by decide)

/-- Claim C8: deserializing the literal `null` through `Time.UnmarshalJSON`
is a no-op — it reports no error and leaves the receiver's embedded time
value exactly as it was. -/
theorem spec_c8 : ∀ prior : GoTimeVal,
    unmarshalJSONChars prior ['n', 'u', 'l', 'l'] = some (prior, none) ∧
    Time_UnmarshalJSON prior "null" = some (prior, none) := by
  intro prior
  constructor
  · rfl
  · rfl

/-- Claim C9: when the JSON value is neither `null` nor a string quoted by
matching double or single quotes, `Time.UnmarshalJSON` returns the
not-a-string-literal format error (carrying the offending value) and leaves
the receiver unchanged; when it is properly quoted, the quotes are stripped
and the inner text is handed to `ParseISO8601Timestamp`, whose outcome
determines the result. -/
theorem spec_c9 : ∀ (prior : GoTimeVal) (l : List Char),
    l ≠ ['n', 'u', 'l', 'l'] →
    ((l.length < 2 ∨ isQuoted l = false) →
      unmarshalJSONChars prior l =
        some (prior, some (.notAString (String.mk l)))) ∧
    (2 ≤ l.length → isQuoted l = true →
      (∀ a, parseChars ((l.drop 1).dropLast) = .ok a →
        unmarshalJSONChars prior l = some (.fromDate a, none)) ∧
      (∀ s, parseChars ((l.drop 1).dropLast) = .err s →
        unmarshalJSONChars prior l = some (.zero, some (.parseFail s)))) := by
  intro prior l hnull
  constructor
  · intro hbad
    unfold unmarshalJSONChars
    rw [if_neg hnull, if_pos hbad]
  · intro hlen hq
    have hcond : ¬ (l.length < 2 ∨ isQuoted l = false) := by
      rintro (hc | hc)
      · omega
      · rw [hq] at hc
        exact Bool.noConfusion hc
    constructor
    · intro a hok
      unfold unmarshalJSONChars
      rw [if_neg hnull, if_neg hcond, hok]
    · intro s herr
      unfold unmarshalJSONChars
      rw [if_neg hnull, if_neg hcond, herr]

/-- Claim C9 witness: the bare number `1` is rejected as a format error. -/
theorem spec_c9_witness :
    unmarshalJSONChars GoTimeVal.zero ['1'] =
      some (GoTimeVal.zero, some (UnmarshalErr.notAString (String.mk ['1']))) :=
  (spec_c9 GoTimeVal.zero ['1'] (by decide)).1 (by decide)

/-- Claim C10: when the core parser rejects the (unquoted) text, both
`Time.UnmarshalJSON` and `Time.UnmarshalText` overwrite the receiver's
embedded time with the zero value `time.Time{}` before returning the error:
the prior value is not preserved on failure. -/
theorem spec_c10 : ∀ (prior : GoTimeVal) (l : List Char) (s : String),
    (l ≠ ['n', 'u', 'l', 'l'] → 2 ≤ l.length → isQuoted l = true →
      parseChars ((l.drop 1).dropLast) = .err s →
      unmarshalJSONChars prior l = some (.zero, some (.parseFail s))) ∧
    (parseChars l = .err s →
      unmarshalTextChars prior l = some (.zero, some (.parseFail s))) := by
  intro prior l s
  constructor
  · intro hnull hlen hq herr
    have hcond : ¬ (l.length < 2 ∨ isQuoted l = false) := by
      rintro (hc | hc)
      · omega
      · rw [hq] at hc
        exact Bool.noConfusion hc
    unfold unmarshalJSONChars
    rw [if_neg hnull, if_neg hcond, herr]
  · intro herr
    unfold unmarshalTextChars
    rw [herr]

/-- Claim C10 witness: unmarshalling the unparsable quoted string `"x"`
(resp. raw text `x`) over a non-zero prior time value resets the embedded
time to the zero value and returns the parse error. -/
theorem spec_c10_witness :
    unmarshalJSONChars (GoTimeVal.fromDate ⟨2020, 2, 17, 11, 39, 27, 0, GoLoc.utc⟩)
        ['"', 'x', '"'] =
      some (GoTimeVal.zero, some (UnmarshalErr.parseFail (String.mk ['x']))) ∧
    unmarshalTextChars (GoTimeVal.fromDate ⟨2020, 2, 17, 11, 39, 27, 0, GoLoc.utc⟩)
        ['x'] =
      some (GoTimeVal.zero, some (UnmarshalErr.parseFail (String.mk ['x']))) :=
  ⟨(spec_c10 (GoTimeVal.fromDate ⟨2020, 2, 17, 11, 39, 27, 0, GoLoc.utc⟩)
      ['"', 'x', '"'] (String.mk ['x'])).1 (by decide) (by decide) (by decide)
      (by decide),
   (spec_c10 (GoTimeVal.fromDate ⟨2020, 2, 17, 11, 39, 27, 0, GoLoc.utc⟩)
      ['x'] (String.mk ['x'])).2 (by decide)⟩

/-! ### Character contradictions used to reject mixed-separator inputs -/

theorem eq_hyphen_contra {c : Char} (h : c = '-') (hlo : 48 ≤ c.toNat) :
    False := by
  subst h
  revert hlo
  decide

theorem eq_colon_contra {c : Char} (h : c = ':') (hhi : c.toNat ≤ 57) :
    False := by
  subst h
  revert hhi
  decide

theorem hyphen_lt_contra {c : Char} (h : ('-' : Char) = c)
    (hlo : 48 ≤ c.toNat) : False :=
  eq_hyphen_contra h.symm hlo

theorem colon_gt_contra {c : Char} (h : (':' : Char) = c)
    (hhi : c.toNat ≤ 57) : False :=
  eq_colon_contra h.symm hhi

/-- Claim C1: an input whose date segment mixes separators (a hyphen in
one slot but not the other, in either order) or whose time segment mixes
separators (a colon in one slot but not the other, with the date segment
consistently hyphenated or consistently compact) is matched by none of
the six regex variants, for every choice of valid field characters and
every continuation of the string, and `ParseISO8601Timestamp` returns the
lexical-mismatch error carrying the input: separator consistency is
enforced per segment, not per character. -/
theorem spec_c1 :
    ∀ (y1 y2 y3 y4 m1 m2 d1 d2 sc h1 h2 n1 n2 s1 s2 : Char)
      (tail : List Char),
    digitOk y1 = true → digitOk y2 = true → digitOk y3 = true →
    digitOk y4 = true → monthOk m1 m2 = true → dayOk d1 d2 = true →
    sepOk sc = true → hourOk h1 h2 = true → minuteOk n1 n2 = true →
    secondOk s1 s2 = true →
    ParseISO8601Timestamp (String.mk ([y1, y2, y3, y4, '-', m1, m2, d1, d2] ++ tail)) =
      ParseOutcome.err (String.mk ([y1, y2, y3, y4, '-', m1, m2, d1, d2] ++ tail)) ∧
    ParseISO8601Timestamp (String.mk ([y1, y2, y3, y4, m1, m2, '-', d1, d2] ++ tail)) =
      ParseOutcome.err (String.mk ([y1, y2, y3, y4, m1, m2, '-', d1, d2] ++ tail)) ∧
    ParseISO8601Timestamp (String.mk ([y1, y2, y3, y4, '-', m1, m2, '-', d1, d2, sc, h1, h2, ':', n1, n2, s1, s2] ++ tail)) =
      ParseOutcome.err (String.mk ([y1, y2, y3, y4, '-', m1, m2, '-', d1, d2, sc, h1, h2, ':', n1, n2, s1, s2] ++ tail)) ∧
    ParseISO8601Timestamp (String.mk ([y1, y2, y3, y4, '-', m1, m2, '-', d1, d2, sc, h1, h2, n1, n2, ':', s1, s2] ++ tail)) =
      ParseOutcome.err (String.mk ([y1, y2, y3, y4, '-', m1, m2, '-', d1, d2, sc, h1, h2, n1, n2, ':', s1, s2] ++ tail)) ∧
    ParseISO8601Timestamp (String.mk ([y1, y2, y3, y4, m1, m2, d1, d2, sc, h1, h2, ':', n1, n2, s1, s2] ++ tail)) =
      ParseOutcome.err (String.mk ([y1, y2, y3, y4, m1, m2, d1, d2, sc, h1, h2, ':', n1, n2, s1, s2] ++ tail)) ∧
    ParseISO8601Timestamp (String.mk ([y1, y2, y3, y4, m1, m2, d1, d2, sc, h1, h2, n1, n2, ':', s1, s2] ++ tail)) =
      ParseOutcome.err (String.mk ([y1, y2, y3, y4, m1, m2, d1, d2, sc, h1, h2, n1, n2, ':', s1, s2] ++ tail)) := by
  intro y1 y2 y3 y4 m1 m2 d1 d2 sc h1 h2 n1 n2 s1 s2 tail
  intro hy1 hy2 hy3 hy4 hm hd hsc hh hn hs
  refine ⟨?_, ?_, ?_, ?_, ?_, ?_⟩
  -- shape M1
  · have hv0 : variant0 ([y1, y2, y3, y4, '-', m1, m2, d1, d2] ++ tail) = none := by
      cases hmv : variant0 ([y1, y2, y3, y4, '-', m1, m2, d1, d2] ++ tail) with
      | none => rfl
      | some r =>
        exact (eq_hyphen_contra (Option.some.inj (variant0_facts hmv).2.1) (dayOk_first hd).1).elim
    have hv1 : variant1 ([y1, y2, y3, y4, '-', m1, m2, d1, d2] ++ tail) = none := by
      cases hmv : variant1 ([y1, y2, y3, y4, '-', m1, m2, d1, d2] ++ tail) with
      | none => rfl
      | some r =>
        obtain ⟨c, hc, hlo, hhi⟩ := (variant1_facts hmv).1
        exact (hyphen_lt_contra (Option.some.inj hc) hlo).elim
    have hv2 : variant2 ([y1, y2, y3, y4, '-', m1, m2, d1, d2] ++ tail) = none := by
      cases hmv : variant2 ([y1, y2, y3, y4, '-', m1, m2, d1, d2] ++ tail) with
      | none => rfl
      | some r =>
        exact (eq_hyphen_contra (Option.some.inj (variant2_facts hmv).2.1) (dayOk_first hd).1).elim
    have hv3 : variant3 ([y1, y2, y3, y4, '-', m1, m2, d1, d2] ++ tail) = none := by
      cases hmv : variant3 ([y1, y2, y3, y4, '-', m1, m2, d1, d2] ++ tail) with
      | none => rfl
      | some r =>
        obtain ⟨c, hc, hlo, hhi⟩ := (variant3_facts hmv).1
        exact (hyphen_lt_contra (Option.some.inj hc) hlo).elim
    have hv4 : variant4 ([y1, y2, y3, y4, '-', m1, m2, d1, d2] ++ tail) = none := by
      cases hmv : variant4 ([y1, y2, y3, y4, '-', m1, m2, d1, d2] ++ tail) with
      | none => rfl
      | some r =>
        exact (eq_hyphen_contra (Option.some.inj (variant4_facts hmv).2.1) (dayOk_first hd).1).elim
    have hv5 : variant5 ([y1, y2, y3, y4, '-', m1, m2, d1, d2] ++ tail) = none := by
      cases hmv : variant5 ([y1, y2, y3, y4, '-', m1, m2, d1, d2] ++ tail) with
      | none => rfl
      | some r =>
        obtain ⟨c, hc, hlo, hhi⟩ := (variant5_facts hmv).1
        exact (hyphen_lt_contra (Option.some.inj hc) hlo).elim
    exact parseChars_err_of hv0 hv1 hv2 hv3 hv4 hv5
  -- shape M2
  · have hv0 : variant0 ([y1, y2, y3, y4, m1, m2, '-', d1, d2] ++ tail) = none := by
      cases hmv : variant0 ([y1, y2, y3, y4, m1, m2, '-', d1, d2] ++ tail) with
      | none => rfl
      | some r =>
        exact (eq_hyphen_contra (Option.some.inj (variant0_facts hmv).1) (monthOk_first hm).1).elim
    have hv1 : variant1 ([y1, y2, y3, y4, m1, m2, '-', d1, d2] ++ tail) = none := by
      cases hmv : variant1 ([y1, y2, y3, y4, m1, m2, '-', d1, d2] ++ tail) with
      | none => rfl
      | some r =>
        obtain ⟨c, hc, hlo, hhi⟩ := (variant1_facts hmv).2.1
        exact (hyphen_lt_contra (Option.some.inj hc) hlo).elim
    have hv2 : variant2 ([y1, y2, y3, y4, m1, m2, '-', d1, d2] ++ tail) = none := by
      cases hmv : variant2 ([y1, y2, y3, y4, m1, m2, '-', d1, d2] ++ tail) with
      | none => rfl
      | some r =>
        exact (eq_hyphen_contra (Option.some.inj (variant2_facts hmv).1) (monthOk_first hm).1).elim
    have hv3 : variant3 ([y1, y2, y3, y4, m1, m2, '-', d1, d2] ++ tail) = none := by
      cases hmv : variant3 ([y1, y2, y3, y4, m1, m2, '-', d1, d2] ++ tail) with
      | none => rfl
      | some r =>
        obtain ⟨c, hc, hlo, hhi⟩ := (variant3_facts hmv).2.1
        exact (hyphen_lt_contra (Option.some.inj hc) hlo).elim
    have hv4 : variant4 ([y1, y2, y3, y4, m1, m2, '-', d1, d2] ++ tail) = none := by
      cases hmv : variant4 ([y1, y2, y3, y4, m1, m2, '-', d1, d2] ++ tail) with
      | none => rfl
      | some r =>
        exact (eq_hyphen_contra (Option.some.inj (variant4_facts hmv).1) (monthOk_first hm).1).elim
    have hv5 : variant5 ([y1, y2, y3, y4, m1, m2, '-', d1, d2] ++ tail) = none := by
      cases hmv : variant5 ([y1, y2, y3, y4, m1, m2, '-', d1, d2] ++ tail) with
      | none => rfl
      | some r =>
        obtain ⟨c, hc, hlo, hhi⟩ := (variant5_facts hmv).2.1
        exact (hyphen_lt_contra (Option.some.inj hc) hlo).elim
    exact parseChars_err_of hv0 hv1 hv2 hv3 hv4 hv5
  -- shape M3
  · have hv0 : variant0 ([y1, y2, y3, y4, '-', m1, m2, '-', d1, d2, sc, h1, h2, ':', n1, n2, s1, s2] ++ tail) = none := by
      cases hmv : variant0 ([y1, y2, y3, y4, '-', m1, m2, '-', d1, d2, sc, h1, h2, ':', n1, n2, s1, s2] ++ tail) with
      | none => rfl
      | some r =>
        exact (eq_colon_contra (Option.some.inj (variant0_facts hmv).2.2.2.2.1)
          (Nat.le_trans (secondOk_first hs).2 (by omega))).elim
    have hv1 : variant1 ([y1, y2, y3, y4, '-', m1, m2, '-', d1, d2, sc, h1, h2, ':', n1, n2, s1, s2] ++ tail) = none := by
      cases hmv : variant1 ([y1, y2, y3, y4, '-', m1, m2, '-', d1, d2, sc, h1, h2, ':', n1, n2, s1, s2] ++ tail) with
      | none => rfl
      | some r =>
        obtain ⟨c, hc, hlo, hhi⟩ := (variant1_facts hmv).1
        exact (hyphen_lt_contra (Option.some.inj hc) hlo).elim
    have hv2 : variant2 ([y1, y2, y3, y4, '-', m1, m2, '-', d1, d2, sc, h1, h2, ':', n1, n2, s1, s2] ++ tail) = none := by
      cases hmv : variant2 ([y1, y2, y3, y4, '-', m1, m2, '-', d1, d2, sc, h1, h2, ':', n1, n2, s1, s2] ++ tail) with
      | none => rfl
      | some r =>
        obtain ⟨c, hc, hlo, hhi⟩ := (variant2_facts hmv).2.2.2.1
        exact (colon_gt_contra (Option.some.inj hc)
          (Nat.le_trans hhi (by omega))).elim
    have hv3 : variant3 ([y1, y2, y3, y4, '-', m1, m2, '-', d1, d2, sc, h1, h2, ':', n1, n2, s1, s2] ++ tail) = none := by
      cases hmv : variant3 ([y1, y2, y3, y4, '-', m1, m2, '-', d1, d2, sc, h1, h2, ':', n1, n2, s1, s2] ++ tail) with
      | none => rfl
      | some r =>
        obtain ⟨c, hc, hlo, hhi⟩ := (variant3_facts hmv).1
        exact (hyphen_lt_contra (Option.some.inj hc) hlo).elim
    have hv4 : variant4 ([y1, y2, y3, y4, '-', m1, m2, '-', d1, d2, sc, h1, h2, ':', n1, n2, s1, s2] ++ tail) = none := by
      cases hmv : variant4 ([y1, y2, y3, y4, '-', m1, m2, '-', d1, d2, sc, h1, h2, ':', n1, n2, s1, s2] ++ tail) with
      | none => rfl
      | some r =>
        exact Option.noConfusion (variant4_facts hmv).2.2.1
    have hv5 : variant5 ([y1, y2, y3, y4, '-', m1, m2, '-', d1, d2, sc, h1, h2, ':', n1, n2, s1, s2] ++ tail) = none := by
      cases hmv : variant5 ([y1, y2, y3, y4, '-', m1, m2, '-', d1, d2, sc, h1, h2, ':', n1, n2, s1, s2] ++ tail) with
      | none => rfl
      | some r =>
        obtain ⟨c, hc, hlo, hhi⟩ := (variant5_facts hmv).1
        exact (hyphen_lt_contra (Option.some.inj hc) hlo).elim
    exact parseChars_err_of hv0 hv1 hv2 hv3 hv4 hv5
  -- shape M4
  · have hv0 : variant0 ([y1, y2, y3, y4, '-', m1, m2, '-', d1, d2, sc, h1, h2, n1, n2, ':', s1, s2] ++ tail) = none := by
      cases hmv : variant0 ([y1, y2, y3, y4, '-', m1, m2, '-', d1, d2, sc, h1, h2, n1, n2, ':', s1, s2] ++ tail) with
      | none => rfl
      | some r =>
        exact (eq_colon_contra (Option.some.inj (variant0_facts hmv).2.2.2.1)
          (Nat.le_trans (minuteOk_first hn).2 (by omega))).elim
    have hv1 : variant1 ([y1, y2, y3, y4, '-', m1, m2, '-', d1, d2, sc, h1, h2, n1, n2, ':', s1, s2] ++ tail) = none := by
      cases hmv : variant1 ([y1, y2, y3, y4, '-', m1, m2, '-', d1, d2, sc, h1, h2, n1, n2, ':', s1, s2] ++ tail) with
      | none => rfl
      | some r =>
        obtain ⟨c, hc, hlo, hhi⟩ := (variant1_facts hmv).1
        exact (hyphen_lt_contra (Option.some.inj hc) hlo).elim
    have hv2 : variant2 ([y1, y2, y3, y4, '-', m1, m2, '-', d1, d2, sc, h1, h2, n1, n2, ':', s1, s2] ++ tail) = none := by
      cases hmv : variant2 ([y1, y2, y3, y4, '-', m1, m2, '-', d1, d2, sc, h1, h2, n1, n2, ':', s1, s2] ++ tail) with
      | none => rfl
      | some r =>
        obtain ⟨c, hc, hlo, hhi⟩ := (variant2_facts hmv).2.2.2.2.1
        exact (colon_gt_contra (Option.some.inj hc)
          (Nat.le_trans hhi (by omega))).elim
    have hv3 : variant3 ([y1, y2, y3, y4, '-', m1, m2, '-', d1, d2, sc, h1, h2, n1, n2, ':', s1, s2] ++ tail) = none := by
      cases hmv : variant3 ([y1, y2, y3, y4, '-', m1, m2, '-', d1, d2, sc, h1, h2, n1, n2, ':', s1, s2] ++ tail) with
      | none => rfl
      | some r =>
        obtain ⟨c, hc, hlo, hhi⟩ := (variant3_facts hmv).1
        exact (hyphen_lt_contra (Option.some.inj hc) hlo).elim
    have hv4 : variant4 ([y1, y2, y3, y4, '-', m1, m2, '-', d1, d2, sc, h1, h2, n1, n2, ':', s1, s2] ++ tail) = none := by
      cases hmv : variant4 ([y1, y2, y3, y4, '-', m1, m2, '-', d1, d2, sc, h1, h2, n1, n2, ':', s1, s2] ++ tail) with
      | none => rfl
      | some r =>
        exact Option.noConfusion (variant4_facts hmv).2.2.1
    have hv5 : variant5 ([y1, y2, y3, y4, '-', m1, m2, '-', d1, d2, sc, h1, h2, n1, n2, ':', s1, s2] ++ tail) = none := by
      cases hmv : variant5 ([y1, y2, y3, y4, '-', m1, m2, '-', d1, d2, sc, h1, h2, n1, n2, ':', s1, s2] ++ tail) with
      | none => rfl
      | some r =>
        obtain ⟨c, hc, hlo, hhi⟩ := (variant5_facts hmv).1
        exact (hyphen_lt_contra (Option.some.inj hc) hlo).elim
    exact parseChars_err_of hv0 hv1 hv2 hv3 hv4 hv5
  -- shape M5
  · have hv0 : variant0 ([y1, y2, y3, y4, m1, m2, d1, d2, sc, h1, h2, ':', n1, n2, s1, s2] ++ tail) = none := by
      cases hmv : variant0 ([y1, y2, y3, y4, m1, m2, d1, d2, sc, h1, h2, ':', n1, n2, s1, s2] ++ tail) with
      | none => rfl
      | some r =>
        exact (eq_hyphen_contra (Option.some.inj (variant0_facts hmv).1) (monthOk_first hm).1).elim
    have hv1 : variant1 ([y1, y2, y3, y4, m1, m2, d1, d2, sc, h1, h2, ':', n1, n2, s1, s2] ++ tail) = none := by
      cases hmv : variant1 ([y1, y2, y3, y4, m1, m2, d1, d2, sc, h1, h2, ':', n1, n2, s1, s2] ++ tail) with
      | none => rfl
      | some r =>
        obtain ⟨c, hc, hlo, hhi⟩ := (variant1_facts hmv).2.2.2.1
        exact (colon_gt_contra (Option.some.inj hc)
          (Nat.le_trans hhi (by omega))).elim
    have hv2 : variant2 ([y1, y2, y3, y4, m1, m2, d1, d2, sc, h1, h2, ':', n1, n2, s1, s2] ++ tail) = none := by
      cases hmv : variant2 ([y1, y2, y3, y4, m1, m2, d1, d2, sc, h1, h2, ':', n1, n2, s1, s2] ++ tail) with
      | none => rfl
      | some r =>
        exact (eq_hyphen_contra (Option.some.inj (variant2_facts hmv).1) (monthOk_first hm).1).elim
    have hv3 : variant3 ([y1, y2, y3, y4, m1, m2, d1, d2, sc, h1, h2, ':', n1, n2, s1, s2] ++ tail) = none := by
      cases hmv : variant3 ([y1, y2, y3, y4, m1, m2, d1, d2, sc, h1, h2, ':', n1, n2, s1, s2] ++ tail) with
      | none => rfl
      | some r =>
        exact (eq_colon_contra (Option.some.inj (variant3_facts hmv).2.2.2.2.1)
          (Nat.le_trans (secondOk_first hs).2 (by omega))).elim
    have hv4 : variant4 ([y1, y2, y3, y4, m1, m2, d1, d2, sc, h1, h2, ':', n1, n2, s1, s2] ++ tail) = none := by
      cases hmv : variant4 ([y1, y2, y3, y4, m1, m2, d1, d2, sc, h1, h2, ':', n1, n2, s1, s2] ++ tail) with
      | none => rfl
      | some r =>
        exact (eq_hyphen_contra (Option.some.inj (variant4_facts hmv).1) (monthOk_first hm).1).elim
    have hv5 : variant5 ([y1, y2, y3, y4, m1, m2, d1, d2, sc, h1, h2, ':', n1, n2, s1, s2] ++ tail) = none := by
      cases hmv : variant5 ([y1, y2, y3, y4, m1, m2, d1, d2, sc, h1, h2, ':', n1, n2, s1, s2] ++ tail) with
      | none => rfl
      | some r =>
        exact Option.noConfusion (variant5_facts hmv).2.2.1
    exact parseChars_err_of hv0 hv1 hv2 hv3 hv4 hv5
  -- shape M6
  · have hv0 : variant0 ([y1, y2, y3, y4, m1, m2, d1, d2, sc, h1, h2, n1, n2, ':', s1, s2] ++ tail) = none := by
      cases hmv : variant0 ([y1, y2, y3, y4, m1, m2, d1, d2, sc, h1, h2, n1, n2, ':', s1, s2] ++ tail) with
      | none => rfl
      | some r =>
        exact (eq_hyphen_contra (Option.some.inj (variant0_facts hmv).1) (monthOk_first hm).1).elim
    have hv1 : variant1 ([y1, y2, y3, y4, m1, m2, d1, d2, sc, h1, h2, n1, n2, ':', s1, s2] ++ tail) = none := by
      cases hmv : variant1 ([y1, y2, y3, y4, m1, m2, d1, d2, sc, h1, h2, n1, n2, ':', s1, s2] ++ tail) with
      | none => rfl
      | some r =>
        obtain ⟨c, hc, hlo, hhi⟩ := (variant1_facts hmv).2.2.2.2.1
        exact (colon_gt_contra (Option.some.inj hc)
          (Nat.le_trans hhi (by omega))).elim
    have hv2 : variant2 ([y1, y2, y3, y4, m1, m2, d1, d2, sc, h1, h2, n1, n2, ':', s1, s2] ++ tail) = none := by
      cases hmv : variant2 ([y1, y2, y3, y4, m1, m2, d1, d2, sc, h1, h2, n1, n2, ':', s1, s2] ++ tail) with
      | none => rfl
      | some r =>
        exact (eq_hyphen_contra (Option.some.inj (variant2_facts hmv).1) (monthOk_first hm).1).elim
    have hv3 : variant3 ([y1, y2, y3, y4, m1, m2, d1, d2, sc, h1, h2, n1, n2, ':', s1, s2] ++ tail) = none := by
      cases hmv : variant3 ([y1, y2, y3, y4, m1, m2, d1, d2, sc, h1, h2, n1, n2, ':', s1, s2] ++ tail) with
      | none => rfl
      | some r =>
        exact (eq_colon_contra (Option.some.inj (variant3_facts hmv).2.2.2.1)
          (Nat.le_trans (minuteOk_first hn).2 (by omega))).elim
    have hv4 : variant4 ([y1, y2, y3, y4, m1, m2, d1, d2, sc, h1, h2, n1, n2, ':', s1, s2] ++ tail) = none := by
      cases hmv : variant4 ([y1, y2, y3, y4, m1, m2, d1, d2, sc, h1, h2, n1, n2, ':', s1, s2] ++ tail) with
      | none => rfl
      | some r =>
        exact (eq_hyphen_contra (Option.some.inj (variant4_facts hmv).1) (monthOk_first hm).1).elim
    have hv5 : variant5 ([y1, y2, y3, y4, m1, m2, d1, d2, sc, h1, h2, n1, n2, ':', s1, s2] ++ tail) = none := by
      cases hmv : variant5 ([y1, y2, y3, y4, m1, m2, d1, d2, sc, h1, h2, n1, n2, ':', s1, s2] ++ tail) with
      | none => rfl
      | some r =>
        exact Option.noConfusion (variant5_facts hmv).2.2.1
    exact parseChars_err_of hv0 hv1 hv2 hv3 hv4 hv5

/-- Claim C1 witness: the two spec examples — `"1900-1231T00:10:20Z"`
(date segment mixes separators) via the first conjunct, with the remaining
time part as the continuation. -/
theorem spec_c1_witness :
    ParseISO8601Timestamp "1900-1231T00:10:20Z" =
      ParseOutcome.err "1900-1231T00:10:20Z" :=
  (spec_c1 '1' '9' '0' '0' '1' '2' '3' '1' 'T' '0' '0' '1' '0' '2' '0'
    ("T00:10:20Z".data) (by decide) (by decide) (by decide) (by decide)
    (by decide) (by decide) (by decide) (by decide) (by decide) (by decide)).1

/-- Claim C5: a present fractional capture has 1-9 digits, and the
nanosecond argument passed to `time.Date` is the capture right-padded with
zeros to 9 digits and read as a decimal integer — equivalently its value
times `10 ^ (9 - length)`; an absent capture yields 0 nanoseconds.  The two
spec examples `.6` and `.658731` evaluate accordingly end to end. -/
theorem spec_c5 :
    (∀ (l : List Char) (p : Option (List Char) × List Char) (ds : List Char),
      pFrac l = some p → p.1 = some ds → 1 ≤ ds.length ∧ ds.length ≤ 9) ∧
    (∀ (y m d hh mi se : Nat) (ds tz : List Char) (loc : GoLoc),
      resolveLoc tz = some loc →
      convert (.full y m d hh mi se (some ds) tz) =
        .ok ⟨y, m, d, hh, mi, se, natOfDigits (padTo9 ds), loc⟩ ∧
      natOfDigits (padTo9 ds) = natOfDigits ds * 10 ^ (9 - ds.length) ∧
      convert (.full y m d hh mi se none tz) =
        .ok ⟨y, m, d, hh, mi, se, 0, loc⟩) ∧
    ParseISO8601Timestamp "2020-02-17T11:39:27.6Z" =
      .ok ⟨2020, 2, 17, 11, 39, 27, 600000000, GoLoc.utc⟩ ∧
    ParseISO8601Timestamp "2020-02-17T11:39:27.658731Z" =
      .ok ⟨2020, 2, 17, 11, 39, 27, 658731000, GoLoc.utc⟩ := by
  refine ⟨fun l p ds h hds => pFrac_inv h hds, ?_, by decide, by decide⟩
  intro y m d hh mi se ds tz loc hloc
  refine ⟨?_, natOfDigits_padTo9 ds, ?_⟩
  · simp only [convert, hloc]
  · simp only [convert, hloc]

/-- Claim C5 witness: the conversion step applied to a match of
`"2020-02-17T11:39:27.6Z"` (fractional capture `6`): one digit padded to
nine gives 600000000 nanoseconds. -/
theorem spec_c5_witness :
    convert (MatchRes.full 2020 2 17 11 39 27 (some ['6']) ['Z']) =
      ParseOutcome.ok ⟨2020, 2, 17, 11, 39, 27, 600000000, GoLoc.utc⟩ :=
  (spec_c5.2.1 2020 2 17 11 39 27 ['6'] ['Z'] GoLoc.utc (by decide)).1

/-! ### Forward evaluation of the scanners on well-formed prefixes -/

theorem pYear_cons {a b c d : Char} (ha : digitOk a = true)
    (hb : digitOk b = true) (hc : digitOk c = true) (hd : digitOk d = true)
    (r : List Char) :
    pYear (a :: b :: c :: d :: r) = some (natOfDigits [a, b, c, d], r) := by
  simp [pYear, ha, hb, hc, hd]

theorem p2_cons {ok : Char → Char → Bool} {a b : Char} (h : ok a b = true)
    (r : List Char) : p2 ok (a :: b :: r) = some (natOfDigits [a, b], r) := by
  simp [p2, h]

theorem pChar_cons (c : Char) (r : List Char) : pChar c (c :: r) = some r := by
  simp [pChar]

theorem pSep_cons {c : Char} (h : sepOk c = true) (r : List Char) :
    pSep (c :: r) = some r := by
  simp [pSep, h]

theorem pFrac_skip {c : Char} (h : (c = '.' || c = ',') = false)
    (r : List Char) : pFrac (c :: r) = some (none, c :: r) := by
  simp only [pFrac, h, Bool.false_eq_true, if_false]

/-- Claim C6: a seconds field of 60 or 61 passes the lexical stage — for
every valid surrounding date and time, the hyphenated/colon-separated Zulu
form with seconds `60` or `61` parses successfully with that seconds value —
and the parser hands the out-of-range seconds value to `time.Date`
unchanged (no rollover happens in the parser; in general every field of a
match reaches `time.Date` exactly as captured). -/
theorem spec_c6 :
    ∀ (y1 y2 y3 y4 m1 m2 d1 d2 sc h1 h2 n1 n2 u : Char),
    digitOk y1 = true → digitOk y2 = true → digitOk y3 = true →
    digitOk y4 = true → monthOk m1 m2 = true → dayOk d1 d2 = true →
    sepOk sc = true → hourOk h1 h2 = true → minuteOk n1 n2 = true →
    (u = '0' ∨ u = '1') →
    (ParseISO8601Timestamp (String.mk
        [y1, y2, y3, y4, '-', m1, m2, '-', d1, d2, sc, h1, h2, ':',
         n1, n2, ':', '6', u, 'Z']) =
      .ok ⟨natOfDigits [y1, y2, y3, y4], natOfDigits [m1, m2],
           natOfDigits [d1, d2], natOfDigits [h1, h2], natOfDigits [n1, n2],
           60 + digVal u, 0, GoLoc.utc⟩) ∧
    (∀ (y m d hh mi se : Nat) (fr : Option (List Char)) (tz : List Char)
        (loc : GoLoc), resolveLoc tz = some loc →
      ∃ n, convert (.full y m d hh mi se fr tz) =
        .ok ⟨y, m, d, hh, mi, se, n, loc⟩) := by
  intro y1 y2 y3 y4 m1 m2 d1 d2 sc h1 h2 n1 n2 u
  intro hy1 hy2 hy3 hy4 hm hd hsc hh hn hu
  have hsec : secondOk '6' u = true := by
    rcases hu with rfl | rfl
    · decide
    · decide
  constructor
  · have hv0 : variant0 [y1, y2, y3, y4, '-', m1, m2, '-', d1, d2, sc,
        h1, h2, ':', n1, n2, ':', '6', u, 'Z'] =
        some (MatchRes.full (natOfDigits [y1, y2, y3, y4])
          (natOfDigits [m1, m2]) (natOfDigits [d1, d2])
          (natOfDigits [h1, h2]) (natOfDigits [n1, n2])
          (natOfDigits ['6', u]) none ['Z']) := by
      simp only [variant0]
      rw [pYear_cons hy1 hy2 hy3 hy4]
      simp only [Option.some_bind]
      rw [pChar_cons]
      simp only [Option.some_bind]
      rw [p2_cons hm]
      simp only [Option.some_bind]
      rw [pChar_cons]
      simp only [Option.some_bind]
      rw [p2_cons hd]
      simp only [Option.some_bind]
      rw [pSep_cons hsc]
      simp only [Option.some_bind]
      rw [p2_cons hh]
      simp only [Option.some_bind]
      rw [pChar_cons]
      simp only [Option.some_bind]
      rw [p2_cons hn]
      simp only [Option.some_bind]
      rw [pChar_cons]
      simp only [Option.some_bind]
      rw [p2_cons hsec]
      simp only [Option.some_bind]
      rw [pFrac_skip (by decide)]
      simp only [Option.some_bind]
      rfl
    have hfm : firstMatch [y1, y2, y3, y4, '-', m1, m2, '-', d1, d2, sc,
        h1, h2, ':', n1, n2, ':', '6', u, 'Z'] =
        some (MatchRes.full (natOfDigits [y1, y2, y3, y4])
          (natOfDigits [m1, m2]) (natOfDigits [d1, d2])
          (natOfDigits [h1, h2]) (natOfDigits [n1, n2])
          (natOfDigits ['6', u]) none ['Z']) := by
      simp only [firstMatch, hv0]
    show parseChars [y1, y2, y3, y4, '-', m1, m2, '-', d1, d2, sc, h1, h2,
      ':', n1, n2, ':', '6', u, 'Z'] = _
    simp only [parseChars, hfm]
    rfl
  · intro y m d hh2 mi se fr tz loc hloc
    cases fr with
    | none => exact ⟨0, by simp [convert, hloc]⟩
    | some ds => exact ⟨natOfDigits (padTo9 ds), by simp [convert, hloc]⟩

/-- Claim C6 witness: the spec example `"1900-12-31T00:10:60Z"` parses, and
`time.Date` receives second = 60 verbatim. -/
theorem spec_c6_witness :
    ParseISO8601Timestamp "1900-12-31T00:10:60Z" =
      ParseOutcome.ok ⟨1900, 12, 31, 0, 10, 60, 0, GoLoc.utc⟩ :=
  (spec_c6 '1' '9' '0' '0' '1' '2' '3' '1' 'T' '0' '0' '1' '0' '0'
    (by decide) (by decide) (by decide) (by decide) (by decide) (by decide)
    (by decide) (by decide) (by decide) (Or.inl rfl)).1
